import Mathlib

/-!
Shallow embedding of the FinGuard personal-finance core
(`core/models.py`, `core/services/transaction_service.py`,
`core/services/budget_service.py`, `core/signals.py`).

Monetary amounts are exact decimals in the source (`DecimalField`), embedded
as `ℚ`.  Dates (`DateField`) are embedded as `ℤ` day ordinals: the source only
compares dates and steps them by whole days, so any linearly ordered copy of
the calendar is faithful.  Django primary keys are `Nat`.  The object store of the Django ORM (`X.objects...`) is embedded as explicit `List` parameters; a
queryset `filter` is a `List.filter`, `aggregate(Sum)` with the
`or Decimal(0)` default is a list sum (empty sum is `0`, matching the
`None or Decimal(0.00)` fallback).
-/

namespace FinGuard

/-- Type choices `TYPE_CHOICES` shared by `Category` and `Transaction` in `core/models.py`. -/
inductive TxType where
  | INCOME
  | EXPENSE
deriving DecidableEq, Repr

/-- Category model (`core/models.py`): classification label with a type.
Django model equality is primary-key equality, so all comparisons between
category-valued fields below compare `id`. -/
structure Category where
  id : Nat
  name : String
  type : TxType
deriving DecidableEq, Repr

/-- Account model (`core/models.py`): named balance holder owned by a user. -/
structure Account where
  id : Nat
  userId : Nat
  name : String
  balance : ℚ
deriving DecidableEq, Repr

/-- Transaction model (`core/models.py`): a positive amount whose sign is
carried by `type`, posted against one account and one category. -/
structure Transaction where
  id : Nat
  userId : Nat
  accountId : Nat
  category : Category
  amount : ℚ
  type : TxType
  date : ℤ
deriving DecidableEq, Repr

/-- Budget model (`core/models.py`): a cap for one user and category over
the closed interval `[period_start, period_end]`. -/
structure Budget where
  id : Nat
  userId : Nat
  category : Category
  amount : ℚ
  period_start : ℤ
  period_end : ℤ
deriving DecidableEq, Repr

/-- Sum of the `amount` column over a list of transactions, as the Django
`aggregate(total=Sum(amount))` with the `or Decimal(0.00)` default. -/
def sumAmounts (l : List Transaction) : ℚ :=
  (l.map Transaction.amount).sum

/-- Embedding of `TransactionService.recalculate_account_balance`
(`core/services/transaction_service.py`): total INCOME minus total EXPENSE
over the transactions of the account; writes the result into `account.balance`
and also returns it. -/
def recalculate_account_balance (txs : List Transaction) (account : Account) :
    ℚ × Account :=
  let total_income :=
    sumAmounts (txs.filter fun t =>
      decide (t.accountId = account.id ∧ t.type = TxType.INCOME))
  let total_expense :=
    sumAmounts (txs.filter fun t =>
      decide (t.accountId = account.id ∧ t.type = TxType.EXPENSE))
  let new_balance := total_income - total_expense
  (new_balance, { account with balance := new_balance })

/-- Result record of `BudgetService.get_budget_status`
(`core/services/budget_service.py`). -/
structure BudgetStatus where
  spent : ℚ
  remaining : ℚ
  percentage : ℚ
  status : String
  is_exceeded : Bool
deriving DecidableEq, Repr

/-- The transaction filter used by `BudgetService.get_budget_status`:
`user=budget.user, category=budget.category, type=EXPENSE,
date__gte=period_start, date__lte=period_end`. -/
def budgetTxFilter (b : Budget) (t : Transaction) : Bool :=
  decide (t.userId = b.userId ∧ t.category.id = b.category.id ∧
    t.type = TxType.EXPENSE ∧ b.period_start ≤ t.date ∧ t.date ≤ b.period_end)

/-- Embedding of `BudgetService.get_budget_status` (`core/services/budget_service.py`).
The source converts the percentage to a float for display; the value is
embedded exactly as the rational `spent / amount * 100` it converts. -/
def get_budget_status (txs : List Transaction) (b : Budget) : BudgetStatus :=
  let spent := sumAmounts (txs.filter (budgetTxFilter b))
  let remaining := b.amount - spent
  let percentage := if b.amount > 0 then spent / b.amount * 100 else 0
  let status :=
    if percentage < 70 then "good"
    else if percentage < 90 then "warning"
    else "danger"
  { spent := spent, remaining := remaining, percentage := percentage,
    status := status, is_exceeded := decide (spent > b.amount) }

/-- Sum-over-filter equals sum of a pointwise guard. -/
theorem sum_filter_eq_sum_ite (p : Transaction → Bool) (l : List Transaction) :
    sumAmounts (l.filter p) =
      (l.map fun t => if p t then t.amount else 0).sum := by
  induction l with
  | nil => rfl
  | cons t l ih =>
    by_cases h : p t <;>
      simp [sumAmounts, List.filter_cons, h, List.map_cons, List.sum_cons] <;>
      simpa [sumAmounts] using ih

/-- C1. `recalculate_account_balance` sets the balance of the account to, and
returns, the sum of amounts of the INCOME transactions of the account minus the sum
of amounts of its EXPENSE transactions (exact arithmetic); with no
transactions on the account both sums are empty, so the balance is exactly 0. -/
theorem recalculate_account_balance_correct
    (txs : List Transaction) (account : Account) :
    (recalculate_account_balance txs account).1 =
        (txs.map fun t =>
            if t.accountId = account.id ∧ t.type = TxType.INCOME
            then t.amount else 0).sum -
          (txs.map fun t =>
            if t.accountId = account.id ∧ t.type = TxType.EXPENSE
            then t.amount else 0).sum ∧
      (recalculate_account_balance txs account).2.balance =
        (recalculate_account_balance txs account).1 ∧
      ((∀ t ∈ txs, t.accountId ≠ account.id) →
        (recalculate_account_balance txs account).2.balance = 0) := by
  refine ⟨?_, rfl, ?_⟩
  · simp only [recalculate_account_balance, sum_filter_eq_sum_ite,
      decide_eq_true_eq]
  · intro h
    have hinc : (txs.filter fun t =>
        decide (t.accountId = account.id ∧ t.type = TxType.INCOME)) = [] := by
      refine List.filter_eq_nil_iff.2 fun t ht => ?_
      simp only [decide_eq_true_eq, not_and]
      intro hacc
      exact absurd hacc (h t ht)
    have hexp : (txs.filter fun t =>
        decide (t.accountId = account.id ∧ t.type = TxType.EXPENSE)) = [] := by
      refine List.filter_eq_nil_iff.2 fun t ht => ?_
      simp only [decide_eq_true_eq, not_and]
      intro hacc
      exact absurd hacc (h t ht)
    simp only [recalculate_account_balance, hinc, hexp, sumAmounts,
      List.map_nil, List.sum_nil, sub_zero]

/-- Witness for C1 at a concrete account and transaction list. -/
theorem recalculate_account_balance_correct_witness :
    ((recalculate_account_balance
        [⟨1, 1, 1, ⟨1, "Salary", TxType.INCOME⟩, 5000, TxType.INCOME, 0⟩]
        ⟨2, 1, "Spare", 7⟩).2.balance = 0) := by
  have h := recalculate_account_balance_correct
    [⟨1, 1, 1, ⟨1, "Salary", TxType.INCOME⟩, 5000, TxType.INCOME, 0⟩]
    ⟨2, 1, "Spare", 7⟩
  exact h.2.2 (by decide)

/-- Division that fails on a zero divisor, standing for the Python
`ZeroDivisionError`. -/
def checkedDiv (a c : ℚ) : Option ℚ :=
  if c = 0 then none else some (a / c)

/-- The percentage computation of `get_budget_status` with its division made
explicitly fallible: the division branch runs only under the
`budget.amount > 0` guard, otherwise the value is defined as `0.0`. -/
def budgetPercentage (spent amount : ℚ) : Option ℚ :=
  if amount > 0 then (checkedDiv spent amount).map (fun q => q * 100)
  else some 0

/-- C3. `get_budget_status` returns `spent` = the sum of amounts of
EXPENSE transactions matching the user and category of the budget with date in
`[period_start, period_end]` (both ends inclusive), `remaining` =
`amount - spent`, and `is_exceeded` iff `spent > amount`; a matching
transaction dated on either bound is counted in `spent`, one dated a day
outside either bound is not. -/
theorem get_budget_status_spent_spec (txs : List Transaction) (b : Budget) :
    (get_budget_status txs b).spent =
        (txs.map fun t =>
          if t.userId = b.userId ∧ t.category.id = b.category.id ∧
              t.type = TxType.EXPENSE ∧ b.period_start ≤ t.date ∧
              t.date ≤ b.period_end
          then t.amount else 0).sum ∧
      (get_budget_status txs b).remaining =
        b.amount - (get_budget_status txs b).spent ∧
      ((get_budget_status txs b).is_exceeded = true ↔
        b.amount < (get_budget_status txs b).spent) ∧
      ∀ t : Transaction, t.userId = b.userId → t.category.id = b.category.id →
        t.type = TxType.EXPENSE →
        ((b.period_start ≤ t.date → t.date ≤ b.period_end →
            (get_budget_status (t :: txs) b).spent =
              t.amount + (get_budget_status txs b).spent) ∧
          ((t.date = b.period_start - 1 ∨ t.date = b.period_end + 1) →
            (get_budget_status (t :: txs) b).spent =
              (get_budget_status txs b).spent)) := by
  refine ⟨?_, rfl, by simp [get_budget_status], ?_⟩
  · show sumAmounts (txs.filter (budgetTxFilter b)) = _
    rw [sum_filter_eq_sum_ite]
    simp only [budgetTxFilter, decide_eq_true_eq]
  · intro t hu hc hty
    have hsp : (get_budget_status txs b).spent =
        sumAmounts (txs.filter (budgetTxFilter b)) := rfl
    constructor
    · intro h1 h2
      have hf : budgetTxFilter b t = true := by
        simp only [budgetTxFilter, decide_eq_true_eq]
        exact ⟨hu, hc, hty, h1, h2⟩
      show sumAmounts ((t :: txs).filter (budgetTxFilter b)) = _
      rw [hsp]
      simp [List.filter_cons, hf, sumAmounts]
    · intro hd
      have hf : budgetTxFilter b t = false := by
        simp only [budgetTxFilter, decide_eq_false_iff_not, not_and]
        intro _ _ _ h1 h2
        rcases hd with hd | hd <;> omega
      show sumAmounts ((t :: txs).filter (budgetTxFilter b)) = _
      rw [hsp]
      simp [List.filter_cons, hf]

/-- Witness for C3 at a concrete budget and transactions on both bounds and
one day outside. -/
theorem get_budget_status_spent_spec_witness :
    (get_budget_status
        [⟨1, 1, 1, ⟨2, "Food", TxType.EXPENSE⟩, 40, TxType.EXPENSE, 10⟩]
        ⟨1, 1, ⟨2, "Food", TxType.EXPENSE⟩, 100, 10, 20⟩).spent = 40 ∧
      (get_budget_status
        (⟨2, 1, 1, ⟨2, "Food", TxType.EXPENSE⟩, 7, TxType.EXPENSE, 9⟩ ::
          [⟨1, 1, 1, ⟨2, "Food", TxType.EXPENSE⟩, 40, TxType.EXPENSE, 10⟩])
        ⟨1, 1, ⟨2, "Food", TxType.EXPENSE⟩, 100, 10, 20⟩).spent = 40 := by
  have h := get_budget_status_spent_spec
    [⟨1, 1, 1, ⟨2, "Food", TxType.EXPENSE⟩, 40, TxType.EXPENSE, 10⟩]
    ⟨1, 1, ⟨2, "Food", TxType.EXPENSE⟩, 100, 10, 20⟩
  have hbase :
      (get_budget_status
        [⟨1, 1, 1, ⟨2, "Food", TxType.EXPENSE⟩, 40, TxType.EXPENSE, 10⟩]
        ⟨1, 1, ⟨2, "Food", TxType.EXPENSE⟩, 100, 10, 20⟩).spent = 40 := by
    rw [h.1]; norm_num
  refine ⟨hbase, ?_⟩
  have hout := ((h.2.2.2
    ⟨2, 1, 1, ⟨2, "Food", TxType.EXPENSE⟩, 7, TxType.EXPENSE, 9⟩
    rfl rfl rfl).2) (Or.inl (by norm_num))
  rw [hout, hbase]

/-- C4. The status tier of `get_budget_status` follows the closed-open
thresholds on the percentage: `< 70` is "good", `[70, 90)` is "warning",
`≥ 90` is "danger"; a percentage above 100 (spent exceeding the amount)
lands in "danger" through the same `≥ 90` rule. -/
theorem get_budget_status_tier (txs : List Transaction) (b : Budget) :
    ((get_budget_status txs b).percentage < 70 →
        (get_budget_status txs b).status = "good") ∧
      (70 ≤ (get_budget_status txs b).percentage →
        (get_budget_status txs b).percentage < 90 →
        (get_budget_status txs b).status = "warning") ∧
      (90 ≤ (get_budget_status txs b).percentage →
        (get_budget_status txs b).status = "danger") ∧
      (100 < (get_budget_status txs b).percentage →
        (get_budget_status txs b).status = "danger") := by
  have hst : (get_budget_status txs b).status =
      (if (get_budget_status txs b).percentage < 70 then "good"
        else if (get_budget_status txs b).percentage < 90 then "warning"
        else "danger") := rfl
  refine ⟨fun h => ?_, fun h1 h2 => ?_, fun h => ?_, fun h => ?_⟩ <;>
    rw [hst]
  · rw [if_pos h]
  · rw [if_neg (by linarith), if_pos h2]
  · rw [if_neg (by linarith), if_neg (by linarith)]
  · rw [if_neg (by linarith), if_neg (by linarith)]

/-- Witness for C4: a 100.00 budget with 150.00 spent has percentage 150 and
status "danger". -/
theorem get_budget_status_tier_witness :
    (get_budget_status
        [⟨1, 1, 1, ⟨2, "Food", TxType.EXPENSE⟩, 150, TxType.EXPENSE, 5⟩]
        ⟨1, 1, ⟨2, "Food", TxType.EXPENSE⟩, 100, 0, 30⟩).status = "danger" :=
  (get_budget_status_tier
    [⟨1, 1, 1, ⟨2, "Food", TxType.EXPENSE⟩, 150, TxType.EXPENSE, 5⟩]
    ⟨1, 1, ⟨2, "Food", TxType.EXPENSE⟩, 100, 0, 30⟩).2.2.2 (by
      norm_num [get_budget_status, budgetTxFilter, sumAmounts])

/-- C8. The percentage of `get_budget_status`, recomputed with an
explicitly fallible division, always succeeds (no division-by-zero error)
and agrees with the returned value; for a budget with amount 0 the
percentage is exactly 0. -/
theorem get_budget_status_no_div_by_zero (txs : List Transaction)
    (b : Budget) :
    budgetPercentage (get_budget_status txs b).spent b.amount =
        some ((get_budget_status txs b).percentage) ∧
      (b.amount = 0 → (get_budget_status txs b).percentage = 0) := by
  have hp : (get_budget_status txs b).percentage =
      (if b.amount > 0
        then (get_budget_status txs b).spent / b.amount * 100 else 0) := rfl
  constructor
  · by_cases h : b.amount > 0
    · rw [budgetPercentage, if_pos h, checkedDiv, if_neg (ne_of_gt h), hp,
        if_pos h]
      rfl
    · rw [budgetPercentage, if_neg h, hp, if_neg h]
  · intro h0
    rw [hp, if_neg (by rw [h0]; exact lt_irrefl 0)]

/-- Witness for C8 at a concrete zero-amount budget. -/
theorem get_budget_status_no_div_by_zero_witness :
    (get_budget_status []
        ⟨1, 1, ⟨2, "Food", TxType.EXPENSE⟩, 0, 0, 30⟩).percentage = 0 :=
  (get_budget_status_no_div_by_zero []
    ⟨1, 1, ⟨2, "Food", TxType.EXPENSE⟩, 0, 0, 30⟩).2 rfl

/-- Embedding of `BudgetService.validate_budget_overlap`
(`core/services/budget_service.py`): true iff some budget of the same
(user, category) pair overlaps `[period_start, period_end]` under the
closed-interval test, excluding `exclude_budget_id` when that argument is
truthy (Python `if exclude_budget_id:` — `None` and `0` skip the
exclusion). -/
def validate_budget_overlap (budgets : List Budget) (userId : Nat)
    (categoryId : Nat) (period_start period_end : ℤ)
    (exclude_budget_id : Option Nat) : Bool :=
  let overlapping := budgets.filter fun b =>
    decide (b.userId = userId ∧ b.category.id = categoryId ∧
      b.period_start ≤ period_end ∧ b.period_end ≥ period_start)
  let overlapping :=
    match exclude_budget_id with
    | some i =>
      if i ≠ 0 then overlapping.filter fun (b : Budget) => decide (b.id ≠ i)
      else overlapping
    | none => overlapping
  !overlapping.isEmpty

/-- A filtered list is nonempty iff some member passes the filter. -/
theorem filter_not_isEmpty_iff {α : Type} (p : α → Bool) (l : List α) :
    (!(l.filter p).isEmpty) = true ↔ ∃ x ∈ l, p x = true := by
  rcases hf : l.filter p with _ | ⟨x, r⟩
  · simp only [List.isEmpty_nil, Bool.not_true, Bool.false_eq_true, false_iff]
    rintro ⟨x, hx, hp⟩
    have hmem : x ∈ l.filter p := List.mem_filter.2 ⟨hx, hp⟩
    rw [hf] at hmem
    exact absurd hmem (List.not_mem_nil x)
  · simp only [List.isEmpty_cons, Bool.not_false, true_iff]
    have hmem : x ∈ l.filter p := by rw [hf]; exact List.mem_cons_self x r
    exact ⟨x, (List.mem_filter.1 hmem).1, (List.mem_filter.1 hmem).2⟩

/-- C5. With positive primary keys (as the database assigns),
`validate_budget_overlap` returns true iff some budget other than the one
identified by `exclude_budget_id` has the same user and category and
satisfies `existing.period_start ≤ new.period_end ∧
existing.period_end ≥ new.period_start`. -/
theorem validate_budget_overlap_spec (budgets : List Budget) (userId : Nat)
    (categoryId : Nat) (period_start period_end : ℤ)
    (exclude_budget_id : Option Nat)
    (hpk : ∀ b ∈ budgets, 0 < b.id) :
    validate_budget_overlap budgets userId categoryId period_start period_end
        exclude_budget_id = true ↔
      ∃ b ∈ budgets, (∀ i, exclude_budget_id = some i → b.id ≠ i) ∧
        b.userId = userId ∧ b.category.id = categoryId ∧
        b.period_start ≤ period_end ∧ period_start ≤ b.period_end := by
  rcases exclude_budget_id with _ | i
  · rw [show validate_budget_overlap budgets userId categoryId period_start
        period_end none =
        !(budgets.filter fun b =>
          decide (b.userId = userId ∧ b.category.id = categoryId ∧
            b.period_start ≤ period_end ∧
            b.period_end ≥ period_start)).isEmpty from rfl,
      filter_not_isEmpty_iff]
    simp only [decide_eq_true_eq, ge_iff_le]
    constructor
    · rintro ⟨b, hb, h1, h2, h3, h4⟩
      refine ⟨b, hb, ?_, h1, h2, h3, h4⟩
      intro i hi
      cases hi
    · rintro ⟨b, hb, -, h1, h2, h3, h4⟩
      exact ⟨b, hb, h1, h2, h3, h4⟩
  · by_cases hi0 : i = 0
    · subst hi0
      rw [show validate_budget_overlap budgets userId categoryId period_start
          period_end (some 0) =
          !(budgets.filter fun b =>
            decide (b.userId = userId ∧ b.category.id = categoryId ∧
              b.period_start ≤ period_end ∧
              b.period_end ≥ period_start)).isEmpty from rfl,
        filter_not_isEmpty_iff]
      simp only [decide_eq_true_eq, ge_iff_le]
      constructor
      · rintro ⟨b, hb, h1, h2, h3, h4⟩
        refine ⟨b, hb, ?_, h1, h2, h3, h4⟩
        intro i hi
        cases hi
        exact Nat.pos_iff_ne_zero.1 (hpk b hb)
      · rintro ⟨b, hb, -, h1, h2, h3, h4⟩
        exact ⟨b, hb, h1, h2, h3, h4⟩
    · rw [show validate_budget_overlap budgets userId categoryId period_start
          period_end (some i) =
          !((budgets.filter fun b =>
            decide (b.userId = userId ∧ b.category.id = categoryId ∧
              b.period_start ≤ period_end ∧
              b.period_end ≥ period_start)).filter
                fun (b : Budget) => decide (b.id ≠ i)).isEmpty from by
        rw [validate_budget_overlap]
        simp only [ne_eq, hi0, not_false_eq_true, if_true],
      List.filter_filter, filter_not_isEmpty_iff]
      simp only [Bool.and_eq_true, decide_eq_true_eq, ge_iff_le]
      constructor
      · rintro ⟨b, hb, hne, h1, h2, h3, h4⟩
        refine ⟨b, hb, ?_, h1, h2, h3, h4⟩
        intro j hj
        cases hj
        exact hne
      · rintro ⟨b, hb, hne, h1, h2, h3, h4⟩
        exact ⟨b, hb, hne i rfl, h1, h2, h3, h4⟩

/-- Witness for C5: a [15, 45] budget overlaps a new [1, 28] period, and
the detection reports it. -/
theorem validate_budget_overlap_spec_witness :
    validate_budget_overlap
        [⟨3, 1, ⟨2, "Food", TxType.EXPENSE⟩, 100, 15, 45⟩] 1 2 1 28 none =
      true := by
  rw [validate_budget_overlap_spec
    [⟨3, 1, ⟨2, "Food", TxType.EXPENSE⟩, 100, 15, 45⟩] 1 2 1 28 none
    (by decide)]
  refine ⟨⟨3, 1, ⟨2, "Food", TxType.EXPENSE⟩, 100, 15, 45⟩,
    List.mem_singleton.2 rfl, ?_, rfl, rfl, by decide, by decide⟩
  intro i hi
  cases hi

/-- The persisted store: all accounts and transactions.  Budgets are not
needed by the save pipeline. -/
structure State where
  accounts : List Account
  transactions : List Transaction
deriving DecidableEq, Repr

/-- The `post_save`/`post_delete` signal body
(`core/signals.py`): recalculate and store the balance of the account with
the given id from the current transactions. -/
def recalcAccountIn (s : State) (accId : Nat) : State :=
  { s with accounts := s.accounts.map fun a =>
      if a.id = accId then (recalculate_account_balance s.transactions a).2
      else a }

/-- Persistence step of `Model.save` in Django for a transaction: UPDATE the
row with the same primary key when it exists, INSERT otherwise. -/
def storeTransaction (txs : List Transaction) (t : Transaction) :
    List Transaction :=
  if txs.any fun u => u.id == t.id then
    txs.map fun u => if u.id = t.id then t else u
  else txs ++ [t]

/-- Embedding of `Transaction.save` (`core/models.py`) followed by the
`update_balance_on_transaction_save` signal (`core/signals.py`): raise
`ValueError` when `category.type != type`, leaving the store untouched;
otherwise persist the row and recalculate the balance of `instance.account`.
The raised error is the `Option String` component. -/
def transactionSave (s : State) (t : Transaction) : Option String × State :=
  if t.category.type ≠ t.type then
    (some "Category type must match transaction type", s)
  else
    let s1 : State := { s with transactions := storeTransaction s.transactions t }
    (none, recalcAccountIn s1 t.accountId)

/-- C2. Saving (creating or updating) a transaction whose type differs
from the type of its category raises an error and leaves the store unchanged:
no transaction is persisted and no account balance changes. -/
theorem transactionSave_type_mismatch_rejected (s : State) (t : Transaction)
    (h : t.category.type ≠ t.type) :
    (transactionSave s t).1.isSome = true ∧
      (transactionSave s t).2 = s ∧
      (transactionSave s t).2.transactions = s.transactions ∧
      (transactionSave s t).2.accounts = s.accounts := by
  rw [transactionSave, if_pos h]
  exact ⟨rfl, rfl, rfl, rfl⟩

/-- Witness for C2: an EXPENSE transaction against the INCOME category
"Salary" is rejected without touching the store. -/
theorem transactionSave_type_mismatch_rejected_witness :
    (transactionSave ⟨[⟨1, 1, "Main Account", 0⟩], []⟩
        ⟨1, 1, 1, ⟨1, "Salary", TxType.INCOME⟩, 5, TxType.EXPENSE, 0⟩).2 =
      ⟨[⟨1, 1, "Main Account", 0⟩], []⟩ :=
  (transactionSave_type_mismatch_rejected ⟨[⟨1, 1, "Main Account", 0⟩], []⟩
    ⟨1, 1, 1, ⟨1, "Salary", TxType.INCOME⟩, 5, TxType.EXPENSE, 0⟩
    (by decide)).2.1

/-- Embedding of `create_default_account` (`core/signals.py`): on the `post_save` signal
of `User`, when `created` is true, insert one account named
"Main Account" with balance 0 for the user; on a mere update
(`created = false`) do nothing.  `newId` is the primary key the database
assigns to the inserted row. -/
def create_default_account (accounts : List Account) (newId : Nat)
    (userId : Nat) (created : Bool) : List Account :=
  if created then
    accounts ++
      [{ id := newId, userId := userId, name := "Main Account", balance := 0 }]
  else accounts

/-- C9. Creating a user adds exactly one account — named
"Main Account", balance 0, owned by that user — to the store, and a mere
update of an existing user adds none. -/
theorem create_default_account_spec (accounts : List Account) (newId : Nat)
    (userId : Nat) :
    create_default_account accounts newId userId true =
        accounts ++ [⟨newId, userId, "Main Account", 0⟩] ∧
      ((create_default_account accounts newId userId true).filter fun a =>
          decide (a.userId = userId)).length =
        (accounts.filter fun a => decide (a.userId = userId)).length + 1 ∧
      create_default_account accounts newId userId false = accounts := by
  refine ⟨rfl, ?_, rfl⟩
  rw [create_default_account, if_pos rfl, List.filter_append]
  simp

/-- Embedding of `BudgetService.get_active_budgets`
(`core/services/budget_service.py`): budgets of the user whose period
contains `today` (`period_start__lte=today, period_end__gte=today`).
`today` is the wall-clock date, passed explicitly. -/
def get_active_budgets (budgets : List Budget) (userId : Nat) (today : ℤ) :
    List Budget :=
  budgets.filter fun b =>
    decide (b.userId = userId ∧ b.period_start ≤ today ∧ b.period_end ≥ today)

/-- The alert messages of `BudgetService.check_budget_alerts`
(`core/services/budget_service.py`).  The f-string templates are embedded
as constructors carrying the interpolated data (category name, overshoot,
percentage, remaining); the surrounding prose is display-only. -/
inductive Alert where
  | exceededTargeted (categoryName : String) (overBy : ℚ)
  | nearLimitTargeted (categoryName : String) (pct remaining : ℚ)
  | exceededGeneral (categoryName : String) (overBy : ℚ)
  | nearLimitGeneral (categoryName : String) (pct remaining : ℚ)
deriving DecidableEq, Repr

/-- The loop body of `check_budget_alerts`: appends at most one alert for
the budget to the accumulated list, choosing the targeted branch when a
transaction is given and the general branch otherwise. -/
def alertStep (txs : List Transaction) (txn : Option Transaction)
    (alerts : List Alert) (b : Budget) : List Alert :=
  let status := get_budget_status txs b
  match txn with
  | some t =>
    if t.category.id = b.category.id ∧ t.type = TxType.EXPENSE then
      if status.is_exceeded then
        alerts ++ [Alert.exceededTargeted b.category.name |status.remaining|]
      else if 90 ≤ status.percentage then
        alerts ++ [Alert.nearLimitTargeted b.category.name status.percentage
          status.remaining]
      else alerts
    else alerts
  | none =>
    if status.is_exceeded then
      alerts ++ [Alert.exceededGeneral b.category.name |status.remaining|]
    else if 90 ≤ status.percentage then
      alerts ++ [Alert.nearLimitGeneral b.category.name status.percentage
        status.remaining]
    else alerts

/-- Embedding of `BudgetService.check_budget_alerts`
(`core/services/budget_service.py`): iterate over the active budgets of the user, collecting alerts. -/
def check_budget_alerts (budgets : List Budget) (txs : List Transaction)
    (userId : Nat) (today : ℤ) (txn : Option Transaction) : List Alert :=
  (get_active_budgets budgets userId today).foldl (alertStep txs txn) []

/-- C7. With a just-written transaction, `check_budget_alerts` emits,
per active budget (a budget of the user with `period_start ≤ today ≤ period_end`),
exactly one alert when the category of the budget is the category of the transaction,
the transaction is an EXPENSE, and the budget is exceeded (an exceeded-by
message) or at ≥ 90% (a used-percentage message); every other active
budget, including matching ones below 90%, contributes no alert. -/
theorem check_budget_alerts_targeted_spec (budgets : List Budget)
    (txs : List Transaction) (userId : Nat) (today : ℤ) (t : Transaction) :
    check_budget_alerts budgets txs userId today (some t) =
        (get_active_budgets budgets userId today).filterMap (fun b =>
          if t.category.id = b.category.id ∧ t.type = TxType.EXPENSE then
            if (get_budget_status txs b).is_exceeded then
              some (Alert.exceededTargeted b.category.name
                |(get_budget_status txs b).remaining|)
            else if 90 ≤ (get_budget_status txs b).percentage then
              some (Alert.nearLimitTargeted b.category.name
                (get_budget_status txs b).percentage
                (get_budget_status txs b).remaining)
            else none
          else none) ∧
      ∀ b : Budget, b ∈ get_active_budgets budgets userId today ↔
        b ∈ budgets ∧ b.userId = userId ∧ b.period_start ≤ today ∧
          today ≤ b.period_end := by
  constructor
  · have key : ∀ (l : List Budget) (acc : List Alert),
        l.foldl (alertStep txs (some t)) acc =
          acc ++ l.filterMap (fun b =>
            if t.category.id = b.category.id ∧ t.type = TxType.EXPENSE then
              if (get_budget_status txs b).is_exceeded then
                some (Alert.exceededTargeted b.category.name
                  |(get_budget_status txs b).remaining|)
              else if 90 ≤ (get_budget_status txs b).percentage then
                some (Alert.nearLimitTargeted b.category.name
                  (get_budget_status txs b).percentage
                  (get_budget_status txs b).remaining)
              else none
            else none) := by
      intro l
      induction l with
      | nil => intro acc; simp
      | cons b l ih =>
        intro acc
        rw [List.foldl_cons, List.filterMap_cons]
        have hstep : alertStep txs (some t) acc b =
            (if t.category.id = b.category.id ∧ t.type = TxType.EXPENSE then
              if (get_budget_status txs b).is_exceeded then
                acc ++ [Alert.exceededTargeted b.category.name
                  |(get_budget_status txs b).remaining|]
              else if 90 ≤ (get_budget_status txs b).percentage then
                acc ++ [Alert.nearLimitTargeted b.category.name
                  (get_budget_status txs b).percentage
                  (get_budget_status txs b).remaining]
              else acc
            else acc) := rfl
        rw [hstep]
        split_ifs with h1 h2 h3 <;> simp only [ih] <;> simp
    rw [check_budget_alerts, key (get_active_budgets budgets userId today) [],
      List.nil_append]
  · intro b
    simp only [get_active_budgets, List.mem_filter, decide_eq_true_eq,
      ge_iff_le]

/-- Witness for C7: a budget whose period contains today is reported
active by the characterization in the theorem. -/
theorem check_budget_alerts_targeted_spec_witness :
    (⟨1, 1, ⟨2, "Food", TxType.EXPENSE⟩, 100, 0, 30⟩ : Budget) ∈
      get_active_budgets [⟨1, 1, ⟨2, "Food", TxType.EXPENSE⟩, 100, 0, 30⟩]
        1 10 :=
  ((check_budget_alerts_targeted_spec
      [⟨1, 1, ⟨2, "Food", TxType.EXPENSE⟩, 100, 0, 30⟩] [] 1 10
      ⟨1, 1, 1, ⟨2, "Food", TxType.EXPENSE⟩, 5, TxType.EXPENSE, 10⟩).2
    ⟨1, 1, ⟨2, "Food", TxType.EXPENSE⟩, 100, 0, 30⟩).2
    ⟨List.mem_singleton.2 rfl, rfl, by decide, by decide⟩

/-- Per-budget summary classification record returned by
`BudgetService.get_budget_summary`. -/
structure BudgetSummary where
  total : Nat
  exceeded : Nat
  warning : Nat
  good : ℤ
deriving DecidableEq, Repr

/-- Embedding of `BudgetService.get_budget_summary`
(`core/services/budget_service.py`): counts, over the active budgets of the user, the exceeded ones, then (elif) the ones at ≥ 90%, and reports
`good` as the arithmetic difference `total - exceeded - warning`. -/
def get_budget_summary (budgets : List Budget) (txs : List Transaction)
    (userId : Nat) (today : ℤ) : BudgetSummary :=
  let active := get_active_budgets budgets userId today
  let total_count := active.length
  let counts := active.foldl (fun (c : Nat × Nat) b =>
      let status := get_budget_status txs b
      if status.is_exceeded then (c.1 + 1, c.2)
      else if 90 ≤ status.percentage then (c.1, c.2 + 1)
      else c) (0, 0)
  { total := total_count, exceeded := counts.1, warning := counts.2,
    good := (total_count : ℤ) - counts.1 - counts.2 }

/-- C10. `get_budget_summary` partitions the active budgets of the user into
three disjoint counts summing to the total: exceeded (`spent > amount`),
warning (not exceeded, percentage ≥ 90) and good (the rest); a non-exceeded
active budget at ≥ 90% is counted under `warning` although its
`get_budget_status` tier is "danger". -/
theorem get_budget_summary_partition (budgets : List Budget)
    (txs : List Transaction) (userId : Nat) (today : ℤ) :
    (get_budget_summary budgets txs userId today).exceeded =
        ((get_active_budgets budgets userId today).countP fun b =>
          (get_budget_status txs b).is_exceeded) ∧
      (get_budget_summary budgets txs userId today).warning =
        ((get_active_budgets budgets userId today).countP fun b =>
          !(get_budget_status txs b).is_exceeded &&
            decide (90 ≤ (get_budget_status txs b).percentage)) ∧
      (get_budget_summary budgets txs userId today).good =
        (((get_active_budgets budgets userId today).countP fun b =>
          !(get_budget_status txs b).is_exceeded &&
            decide ((get_budget_status txs b).percentage < 90)) : ℤ) ∧
      ((get_budget_summary budgets txs userId today).exceeded : ℤ) +
          (get_budget_summary budgets txs userId today).warning +
          (get_budget_summary budgets txs userId today).good =
        (get_budget_summary budgets txs userId today).total ∧
      ∀ b : Budget, (get_budget_status txs b).is_exceeded = false →
        90 ≤ (get_budget_status txs b).percentage →
        (get_budget_status txs b).status = "danger" := by
  have hfold : ∀ (l : List Budget) (c : Nat × Nat),
      (l.foldl (fun (c : Nat × Nat) b =>
        let status := get_budget_status txs b
        if status.is_exceeded then (c.1 + 1, c.2)
        else if 90 ≤ status.percentage then (c.1, c.2 + 1)
        else c) c) =
      (c.1 + (l.countP fun b => (get_budget_status txs b).is_exceeded),
        c.2 + (l.countP fun b => !(get_budget_status txs b).is_exceeded &&
          decide (90 ≤ (get_budget_status txs b).percentage))) := by
    intro l
    induction l with
    | nil => intro c; simp
    | cons b l ih =>
      intro c
      rw [List.foldl_cons, List.countP_cons, List.countP_cons]
      by_cases h1 : (get_budget_status txs b).is_exceeded = true
      · simp only [h1, if_true, ih, Bool.not_true, Bool.false_and,
          decide_eq_true_eq]
        refine Prod.ext ?_ ?_ <;> simp <;> omega
      · rw [Bool.not_eq_true] at h1
        by_cases h2 : 90 ≤ (get_budget_status txs b).percentage
        · simp only [h1, Bool.false_eq_true, if_false, h2, if_true,
            Bool.not_false, Bool.true_and, ih, decide_eq_true_eq]
          refine Prod.ext ?_ ?_ <;> simp [h2] <;> omega
        · simp only [h1, Bool.false_eq_true, if_false, h2, ih,
            Bool.not_false, Bool.true_and]
          refine Prod.ext ?_ ?_ <;> simp [h2]
  have hpart : ∀ l : List Budget,
      (l.countP fun b => (get_budget_status txs b).is_exceeded) +
        (l.countP fun b => !(get_budget_status txs b).is_exceeded &&
          decide (90 ≤ (get_budget_status txs b).percentage)) +
        (l.countP fun b => !(get_budget_status txs b).is_exceeded &&
          decide ((get_budget_status txs b).percentage < 90)) = l.length := by
    intro l
    induction l with
    | nil => rfl
    | cons b l ih =>
      rw [List.countP_cons, List.countP_cons, List.countP_cons,
        List.length_cons]
      by_cases h1 : (get_budget_status txs b).is_exceeded = true
      · simp [h1]
        omega
      · rw [Bool.not_eq_true] at h1
        by_cases h2 : 90 ≤ (get_budget_status txs b).percentage
        · have h3 : ¬((get_budget_status txs b).percentage < 90) :=
            not_lt.2 h2
          simp [h1, h2, h3]
          omega
        · have h3 : (get_budget_status txs b).percentage < 90 :=
            lt_of_not_le h2
          simp [h1, h2, h3]
          omega
  have he : (get_budget_summary budgets txs userId today).exceeded =
      ((get_active_budgets budgets userId today).countP fun b =>
        (get_budget_status txs b).is_exceeded) := by
    show ((get_active_budgets budgets userId today).foldl _ (0, 0)).1 = _
    rw [hfold]
    simp
  have hw : (get_budget_summary budgets txs userId today).warning =
      ((get_active_budgets budgets userId today).countP fun b =>
        !(get_budget_status txs b).is_exceeded &&
          decide (90 ≤ (get_budget_status txs b).percentage)) := by
    show ((get_active_budgets budgets userId today).foldl _ (0, 0)).2 = _
    rw [hfold]
    simp
  have ht : (get_budget_summary budgets txs userId today).total =
      (get_active_budgets budgets userId today).length := rfl
  have hg : (get_budget_summary budgets txs userId today).good =
      ((get_budget_summary budgets txs userId today).total : ℤ) -
        (get_budget_summary budgets txs userId today).exceeded -
        (get_budget_summary budgets txs userId today).warning := rfl
  refine ⟨he, hw, ?_, ?_, ?_⟩
  · rw [hg, he, hw, ht]
    have := hpart (get_active_budgets budgets userId today)
    omega
  · rw [hg]
    ring
  · intro b hx hp
    have hst : (get_budget_status txs b).status =
        (if (get_budget_status txs b).percentage < 70 then "good"
          else if (get_budget_status txs b).percentage < 90 then "warning"
          else "danger") := rfl
    rw [hst, if_neg (by linarith), if_neg (by linarith)]

/-- Witness for C10: a non-exceeded budget at exactly 90% has status tier
"danger" (it is counted as warning by the summary). -/
theorem get_budget_summary_partition_witness :
    (get_budget_status
        [⟨1, 1, 1, ⟨2, "Food", TxType.EXPENSE⟩, 90, TxType.EXPENSE, 5⟩]
        ⟨1, 1, ⟨2, "Food", TxType.EXPENSE⟩, 100, 0, 30⟩).status = "danger" :=
  (get_budget_summary_partition [] [⟨1, 1, 1, ⟨2, "Food", TxType.EXPENSE⟩,
      90, TxType.EXPENSE, 5⟩] 1 10).2.2.2.2
    ⟨1, 1, ⟨2, "Food", TxType.EXPENSE⟩, 100, 0, 30⟩
    (by norm_num [get_budget_status, budgetTxFilter, sumAmounts])
    (by norm_num [get_budget_status, budgetTxFilter, sumAmounts])

/-- Embedding of `TransactionService.update_transaction`
(`core/services/transaction_service.py`) restricted to a change of the
account reference: the field is set on the instance and `transaction.save()`
is called; the `post_save` signal then recalculates the balance of
`instance.account` — the *new* account only. -/
def update_transaction_account (s : State) (t : Transaction)
    (newAccountId : Nat) : Option String × State :=
  transactionSave s { t with accountId := newAccountId }

/-- C6 fails on the code: moving the only (10-unit INCOME) transaction
from account 1 to account 2 recalculates account 2 alone; account 1 keeps
its stale balance 10 although the income-minus-expense sum over its current
transactions is 0. -/
theorem update_transaction_moved_account_stale :
    ((update_transaction_account
        ⟨[⟨1, 1, "Main Account", 10⟩, ⟨2, 1, "Savings", 0⟩],
          [⟨1, 1, 1, ⟨1, "Salary", TxType.INCOME⟩, 10, TxType.INCOME, 0⟩]⟩
        ⟨1, 1, 1, ⟨1, "Salary", TxType.INCOME⟩, 10, TxType.INCOME, 0⟩
        2).2.accounts.map Account.balance = [10, 10]) ∧
      (recalculate_account_balance
        (update_transaction_account
          ⟨[⟨1, 1, "Main Account", 10⟩, ⟨2, 1, "Savings", 0⟩],
            [⟨1, 1, 1, ⟨1, "Salary", TxType.INCOME⟩, 10, TxType.INCOME, 0⟩]⟩
          ⟨1, 1, 1, ⟨1, "Salary", TxType.INCOME⟩, 10, TxType.INCOME, 0⟩
          2).2.transactions
        ⟨1, 1, "Main Account", 10⟩).1 = 0 := by
  constructor <;>
    norm_num [update_transaction_account, transactionSave, storeTransaction,
      recalcAccountIn, recalculate_account_balance, sumAmounts,
      List.filter, List.any, List.map]

end FinGuard
